import Mathlib

/-!
Shallow embedding of the Amplify LMS frontend (React + fetch API client)
for verification of its natural-language specification.

Embedded source files:
  * `src/lms-frontend/src/services/api.ts`      — simple API client (`Api`)
  * `src/unnamed/part_001`                      — API client variant taking an
    owner id and Clerk auth (`ApiOwner`)
  * `src/lms-frontend/src/pages/TeacherUpload.tsx` — Clerk-auth teacher upload
    page (`TeacherUpload`) and the student submission page (`StudentSubmit`)
  * `src/unnamed/part_000`                      — simple teacher upload page
    (`TeacherUploadSimple`)

JavaScript objects are modelled as association lists with unique keys; JS
truthiness is modelled explicitly; each `async` function performing `fetch`
is modelled as a program in a free network monad `NetM`, so that the number
of network calls an operation performs is itself provable.
-/

/-- JSON values (the bodies of HTTP requests and responses, and the values
stored in the pages' React state). Numbers are modelled as integers; every
value appearing in the frontend's contracts is an integer count or a string. -/
inductive Json where
  | null : Json
  | bool (b : Bool) : Json
  | num (n : Int) : Json
  | str (s : String) : Json
  | arr (elems : List Json) : Json
  | obj (fields : List (String × Json)) : Json

/-- Property lookup on a JS object: first binding of the key, `none` for a
missing property (JS `undefined`) and for non-object values. -/
def objGet : List (String × Json) → String → Option Json
  | [], _ => none
  | (k, v) :: rest, key => if k = key then some v else objGet rest key

/-- JS spread-update `{ ...r, [k]: v }` on an object with unique keys:
replaces the binding of `k` in place when present, otherwise appends it. -/
def objSet : List (String × Json) → String → Json → List (String × Json)
  | [], k, v => [(k, v)]
  | (k1, v1) :: rest, k, v =>
      if k1 = k then (k, v) :: rest else (k1, v1) :: objSet rest k v

/-- Property access `j.k` in JS: lookup on objects, `undefined` otherwise. -/
def jGet (j : Json) (k : String) : Option Json :=
  match j with
  | .obj fields => objGet fields k
  | _ => none

/-- JS truthiness of a possibly-undefined value (`undefined`, `null`, `false`,
`0` and `""` are falsy; objects and arrays are truthy). -/
def truthy : Option Json → Bool
  | none => false
  | some .null => false
  | some (.bool b) => b
  | some (.num n) => n != 0
  | some (.str s) => s != ""
  | some (.arr _) => true
  | some (.obj _) => true

/-- A file selected in the browser (opaque to the client code: only its
identity travels through the multipart form). -/
structure FileVal where
  name : String
  content : String

/-- One field value of a multipart form (`FormData.append` accepts files and
strings). -/
inductive FormValue where
  | fileVal (f : FileVal) : FormValue
  | strVal (s : String) : FormValue

/-- The body given to `fetch`. -/
inductive RequestBody where
  | empty : RequestBody
  | multipart (fields : List (String × FormValue)) : RequestBody
  | jsonBody (payload : Json) : RequestBody

/-- An HTTP request as assembled by a `fetch` call site. -/
structure Request where
  url : String
  method : String
  headers : List (String × String)
  body : RequestBody

/-- An HTTP response as observed by the client code: the `ok` flag (status in
the 2xx range) and the JSON body `res.json()` would produce. -/
structure Response where
  ok : Bool
  body : Json

/-- Free network monad: a client computation is either finished or performs
one `fetch` and continues with the response. The single-`fetch` shape of each
API operation is thus part of its embedded definition and the exact number of
network calls is provable. -/
inductive NetM (α : Type) where
  | pure (a : α) : NetM α
  | fetch (req : Request) (k : Response → NetM α) : NetM α

/-- Run a network computation against an oracle answering each request. -/
def NetM.run {α : Type} (oracle : Request → Response) : NetM α → α
  | .pure a => a
  | .fetch req k => NetM.run oracle (k (oracle req))

/-- Number of network calls a computation performs against an oracle. -/
def NetM.calls {α : Type} (oracle : Request → Response) : NetM α → Nat
  | .pure _ => 0
  | .fetch req k => 1 + NetM.calls oracle (k (oracle req))

/-- The trace of requests a computation issues against an oracle. -/
def NetM.requests {α : Type} (oracle : Request → Response) : NetM α → List Request
  | .pure _ => []
  | .fetch req k => req :: NetM.requests oracle (k (oracle req))

/-- Map over the result of a network computation. -/
def NetM.map {α β : Type} (f : α → β) : NetM α → NetM β
  | .pure a => .pure (f a)
  | .fetch req k => .fetch req (fun res => NetM.map f (k res))

namespace Api

/- Embedding of src/lms-frontend/src/services/api.ts. `BASE_URL` is the
environment value `import.meta.env.VITE_API_URL`, passed as a parameter. -/

/-- Request built by `uploadAssignment`: POST of a multipart form with the
single field `file`, no explicit headers. -/
def uploadRequest (baseUrl : String) (file : FileVal) : Request :=
  { url := baseUrl ++ "/upload-assignment/"
    method := "POST"
    headers := []
    body := .multipart [("file", .fileVal file)] }

/-- `uploadAssignment(file)`: one fetch; on `!res.ok` throws
`Error("Upload failed")`, otherwise returns `res.json()`. -/
def uploadAssignment (baseUrl : String) (file : FileVal) :
    NetM (Except String Json) :=
  .fetch (uploadRequest baseUrl file)
    (fun res =>
      .pure (if !res.ok then .error "Upload failed" else .ok res.body))

/-- Request built by `getAssignment`: a plain GET, no headers, no body. -/
def assignmentRequest (baseUrl assignmentId : String) : Request :=
  { url := baseUrl ++ "/assignments/" ++ assignmentId
    method := "GET"
    headers := []
    body := .empty }

/-- `getAssignment(assignmentId)`: one fetch; on `!res.ok` throws
`Error("Fetch assignment failed")`, otherwise returns `res.json()`. -/
def getAssignment (baseUrl assignmentId : String) :
    NetM (Except String Json) :=
  .fetch (assignmentRequest baseUrl assignmentId)
    (fun res =>
      .pure (if !res.ok then .error "Fetch assignment failed" else .ok res.body))

/-- Request built by `submitResponses`: POST of `JSON.stringify(payload)` with
the `Content-Type: application/json` header. -/
def submitRequest (baseUrl : String) (payload : Json) : Request :=
  { url := baseUrl ++ "/submissions/"
    method := "POST"
    headers := [("Content-Type", "application/json")]
    body := .jsonBody payload }

/-- `submitResponses(payload)`: one fetch; on `!res.ok` throws
`Error("Submit failed")`, otherwise returns `res.json()`. -/
def submitResponses (baseUrl : String) (payload : Json) :
    NetM (Except String Json) :=
  .fetch (submitRequest baseUrl payload)
    (fun res =>
      .pure (if !res.ok then .error "Submit failed" else .ok res.body))

end Api

namespace ApiOwner

/- Embedding of src/unnamed/part_001, the API client variant whose
`uploadAssignment` takes an `AssignmentUploadPayload` and Clerk auth. -/

/-- Payload of the owner-aware `uploadAssignment`. -/
structure AssignmentUploadPayload where
  file : FileVal
  owner_id : String

/-- Auth context of the owner-aware `uploadAssignment`. -/
structure UploadAssignmentAuth where
  clerkToken : String

/-- Request built by the owner-aware `uploadAssignment`: POST of a multipart
form with fields `file` and `owner_id`, and the two Clerk headers. -/
def uploadRequest (baseUrl : String) (payload : AssignmentUploadPayload)
    (auth : UploadAssignmentAuth) : Request :=
  { url := baseUrl ++ "/upload-assignment/"
    method := "POST"
    headers := [("X-Clerk-Session-Token", auth.clerkToken),
                ("X-Clerk-User-Id", payload.owner_id)]
    body := .multipart [("file", .fileVal payload.file),
                        ("owner_id", .strVal payload.owner_id)] }

/-- `uploadAssignment(payload, auth)`: one fetch; on `!res.ok` throws
`Error("Upload failed")`, otherwise returns `res.json()` (cast, not parsed,
as `AssignmentUploadResponse`). -/
def uploadAssignment (baseUrl : String) (payload : AssignmentUploadPayload)
    (auth : UploadAssignmentAuth) : NetM (Except String Json) :=
  .fetch (uploadRequest baseUrl payload auth)
    (fun res =>
      .pure (if !res.ok then .error "Upload failed" else .ok res.body))

/-- `getAssignment(assignmentId)` of part_001, textually identical to the one
in api.ts. -/
def getAssignment (baseUrl assignmentId : String) :
    NetM (Except String Json) :=
  .fetch { url := baseUrl ++ "/assignments/" ++ assignmentId
           method := "GET"
           headers := []
           body := .empty }
    (fun res =>
      .pure (if !res.ok then .error "Fetch assignment failed" else .ok res.body))

/-- `submitResponses(payload)` of part_001, textually identical to the one in
api.ts (the parameter is typed `unknown` there and `any` in api.ts). -/
def submitResponses (baseUrl : String) (payload : Json) :
    NetM (Except String Json) :=
  .fetch { url := baseUrl ++ "/submissions/"
           method := "POST"
           headers := [("Content-Type", "application/json")]
           body := .jsonBody payload }
    (fun res =>
      .pure (if !res.ok then .error "Submit failed" else .ok res.body))

end ApiOwner

mutual

/-- React text rendering of a JSX expression child `{v}`: strings render as
themselves, numbers via `String(n)`; `null`, `undefined` and booleans render
as nothing. Arrays of children are concatenated in order. -/
def reactTextJ : Json → String
  | .null => ""
  | .bool _ => ""
  | .num n => toString n
  | .str s => s
  | .arr elems => reactTextList elems
  | .obj _ => ""

/-- React rendering of a list of children, concatenated. -/
def reactTextList : List Json → String
  | [] => ""
  | j :: rest => reactTextJ j ++ reactTextList rest

end

/-- React text rendering of a possibly-undefined value. -/
def reactText : Option Json → String
  | none => ""
  | some j => reactTextJ j

/-- JS string conversion as performed inside a template literal; `undefined`
prints as "undefined". -/
def jsTemplate : Option Json → String
  | none => "undefined"
  | some .null => "null"
  | some (.bool b) => if b then "true" else "false"
  | some (.num n) => toString n
  | some (.str s) => s
  | some (.arr _) => ""
  | some (.obj _) => "[object Object]"

/-- React state of the teacher upload page: `useState` hooks `file`, `result`,
`loading`, `err` (shared by both page variants; `result` holds the raw JSON the
upload resolved with). -/
structure TeacherState where
  file : Option FileVal
  result : Option Json
  loading : Bool
  err : Option String

/-- The error paragraph of the teacher pages: `{err && <p>{err}</p>}` renders
the message only when `err` is truthy (non-null, non-empty). -/
def rendersErrMsg (s : TeacherState) : Option String :=
  match s.err with
  | none => none
  | some m => if m = "" then none else some m

/-- The result panel of the teacher pages is rendered exactly when `result`
is non-null: `{result && <div>...</div>}`. -/
def rendersResultPanel (s : TeacherState) : Bool :=
  s.result.isSome

/-- Content of the rendered result panel. -/
structure ResultPanel where
  assignmentIdText : String
  questionsText : String
  linkHref : String

/-- The result panel, when rendered: shows `{result.assignmentId}` and
`{result.questionsCount}` as text and links to
`/student/${result.assignmentId}` (template literal). -/
def resultPanel (s : TeacherState) : Option ResultPanel :=
  match s.result with
  | none => none
  | some r =>
      some { assignmentIdText := reactText (jGet r "assignmentId")
             questionsText := reactText (jGet r "questionsCount")
             linkHref := "/student/" ++ jsTemplate (jGet r "assignmentId") }

namespace TeacherUploadSimple

/- Embedding of src/unnamed/part_000: the teacher upload page without auth. -/

/-- What the synchronous prefix of `onSubmit` decides: either the handler
returned without starting an upload, or the page is now uploading the given
file and awaits the promise. -/
inductive SubmitOutcome where
  | noUpload (s : TeacherState) : SubmitOutcome
  | uploading (s : TeacherState) (f : FileVal) : SubmitOutcome

/-- Synchronous prefix of `onSubmit`: `setErr(null)`, return if no file,
otherwise `setLoading(true)` and start `uploadAssignment(file)`. -/
def onSubmitStart (s : TeacherState) : SubmitOutcome :=
  let s1 : TeacherState := { s with err := none }
  match s1.file with
  | none => .noUpload s1
  | some f => .uploading { s1 with loading := true } f

/-- Continuation of `onSubmit` when the upload promise settles: on resolution
`setResult(data)`, on rejection `setErr(e?.message || "Upload failed")`; the
`finally` block runs `setLoading(false)` either way. -/
def onSubmitFinish (s : TeacherState) : Except String Json → TeacherState
  | .ok data => { s with result := some data, loading := false }
  | .error m =>
      { s with err := some (if m = "" then "Upload failed" else m)
               loading := false }

/-- One whole upload attempt: the submit handler followed, when an upload was
started, by running it against the network and applying the continuation. -/
def attempt (baseUrl : String) (oracle : Request → Response)
    (s : TeacherState) : TeacherState :=
  match onSubmitStart s with
  | .noUpload s1 => s1
  | .uploading s1 f =>
      onSubmitFinish s1 (NetM.run oracle (Api.uploadAssignment baseUrl f))

/-- The upload button: `disabled={!file || loading}`. -/
def uploadButtonDisabled (s : TeacherState) : Bool :=
  s.file.isNone || s.loading

end TeacherUploadSimple

namespace TeacherUpload

/- Embedding of src/lms-frontend/src/pages/TeacherUpload.tsx: the teacher
upload page using Clerk auth. -/

/-- The Clerk auth context the component reads from `useAuth` and `useUser`,
with `token` the value `getToken()` resolves with (`none` models a null
token). -/
structure AuthState where
  isAuthLoaded : Bool
  isUserLoaded : Bool
  isSignedIn : Bool
  currentUser : Option String
  token : Option String

/-- What the prefix of `onSubmit` up to the upload call decides: either the
handler finished without starting an upload, or the page is uploading with the
given payload and auth. -/
inductive SubmitOutcome where
  | noUpload (s : TeacherState) : SubmitOutcome
  | uploading (s : TeacherState) (payload : ApiOwner.AssignmentUploadPayload)
      (auth : ApiOwner.UploadAssignmentAuth) : SubmitOutcome

/-- Prefix of `onSubmit` up to the `uploadAssignment` call: `setErr(null)`;
return if no file; auth-loading and signed-in guards set an error and return;
then `setLoading(true)`; a null or empty Clerk token throws, which the catch
turns into the token error and the `finally` into `setLoading(false)`.
The source guard `!isSignedIn || !currentUser` is split into a match on
`currentUser` and the `isSignedIn` test, with the same result in every case. -/
def onSubmitStart (auth : AuthState) (s : TeacherState) : SubmitOutcome :=
  let s1 : TeacherState := { s with err := none }
  match s1.file with
  | none => .noUpload s1
  | some f =>
    if !auth.isAuthLoaded || !auth.isUserLoaded then
      .noUpload { s1 with
        err := some "Authentication is still loading. Please try again." }
    else
      match auth.currentUser with
      | none =>
          .noUpload { s1 with
            err := some "You must be signed in to upload assignments." }
      | some uid =>
        if !auth.isSignedIn then
          .noUpload { s1 with
            err := some "You must be signed in to upload assignments." }
        else
          let s2 : TeacherState := { s1 with loading := true }
          match auth.token with
          | none =>
              .noUpload { s2 with
                err := some "Unable to retrieve authentication token."
                loading := false }
          | some tok =>
            if tok = "" then
              .noUpload { s2 with
                err := some "Unable to retrieve authentication token."
                loading := false }
            else
              .uploading s2 { file := f, owner_id := uid } { clerkToken := tok }

/-- Continuation of `onSubmit` when the upload promise settles: on resolution
`setResult(data)`; on rejection `setErr(message)` where every rejection the
upload produces is an `Error` whose message is kept; `finally` runs
`setLoading(false)`. -/
def onSubmitFinish (s : TeacherState) : Except String Json → TeacherState
  | .ok data => { s with result := some data, loading := false }
  | .error m => { s with err := some m, loading := false }

/-- One whole upload attempt of the Clerk-auth page. -/
def attempt (baseUrl : String) (oracle : Request → Response)
    (auth : AuthState) (s : TeacherState) : TeacherState :=
  match onSubmitStart auth s with
  | .noUpload s1 => s1
  | .uploading s1 payload a =>
      onSubmitFinish s1
        (NetM.run oracle (ApiOwner.uploadAssignment baseUrl payload a))

/-- The upload button:
`disabled={!file || loading || !isAuthLoaded || !isUserLoaded || !isSignedIn}`. -/
def uploadButtonDisabled (auth : AuthState) (s : TeacherState) : Bool :=
  s.file.isNone || s.loading || !auth.isAuthLoaded || !auth.isUserLoaded ||
    !auth.isSignedIn

end TeacherUpload

namespace StudentSubmit

/- Embedding of the StudentSubmit component in
src/lms-frontend/src/pages/TeacherUpload.tsx (student submission page). -/

/-- React state of the student page: `useState` hooks `assignment`,
`responses`, `result`, `err`; `responses` is a JS object mapping question ids
to answers. -/
structure State where
  assignment : Option Json
  responses : List (String × Json)
  result : Option Json
  err : Option String

/-- Initial state of a freshly mounted page:
`useState(null)`, `useState({})`, `useState(null)`, `useState(null)`. -/
def initState : State :=
  { assignment := none, responses := [], result := none, err := none }

/-- The mount effect: when the `assignmentId` URL parameter is present, run
`getAssignment`; a body with a truthy `error` property sets
"Assignment not found", any other body becomes the assignment; a rejected
fetch sets "Failed to load assignment". -/
def loadEffect (baseUrl : String) (oracle : Request → Response)
    (assignmentId : Option String) (s : State) : State :=
  match assignmentId with
  | none => s
  | some aid =>
    match NetM.run oracle (Api.getAssignment baseUrl aid) with
    | .ok data =>
        if truthy (jGet data "error") then
          { s with err := some "Assignment not found" }
        else
          { s with assignment := some data }
    | .error _ => { s with err := some "Failed to load assignment" }

/-- The per-question change handler:
`setResponses((r) => ({ ...r, [qid]: val }))`. -/
def onChange (s : State) (qid : String) (val : Json) : State :=
  { s with responses := objSet s.responses qid val }

/-- The JSON payload `onSubmit` posts: the whole response set with the
hardcoded student identity. -/
def submitPayload (assignmentId : String) (responses : List (String × Json)) :
    Json :=
  .obj [("assignmentId", .str assignmentId),
        ("studentId", .str "demo-student"),
        ("responses", .obj responses)]

/-- State update when the submit promise settles: on resolution
`setResult(res)`; the catch ignores the error and sets "Submit failed". -/
def handleSubmitResult (s : State) : Except String Json → State
  | .ok res => { s with result := some res }
  | .error _ => { s with err := some "Submit failed" }

/-- The submit handler: nothing without an `assignmentId` URL parameter,
otherwise a single `submitResponses` POST of the whole response set. -/
def onSubmit (baseUrl : String) (assignmentId : Option String) (s : State) :
    NetM State :=
  match assignmentId with
  | none => .pure s
  | some aid =>
      NetM.map (handleSubmitResult s)
        (Api.submitResponses baseUrl (submitPayload aid s.responses))

/-- What the page shows: a bare message `<div>{err}</div>` when `err` is
truthy, `Loading…` before the assignment arrives, otherwise the assignment
page with its title and the list of question values to be mapped over. -/
inductive View where
  | message (text : String) : View
  | page (title : String) (questions : List Json) : View

/-- The render body after the error guard: `if (!assignment) return Loading…`,
otherwise the assignment page over `assignment.questions`. -/
def renderLoaded (s : State) : View :=
  match s.assignment with
  | none => .message "Loading…"
  | some a =>
      .page (reactText (jGet a "title"))
        (match jGet a "questions" with
         | some (.arr qs) => qs
         | _ => [])

/-- The render function: `if (err) return <div>{err}</div>` guards on the
truthiness of the error string. -/
def render (s : State) : View :=
  match s.err with
  | some m => if m = "" then renderLoaded s else .message m
  | none => renderLoaded s

/-- The questions the page renders: none on a message view. -/
def renderedQuestions (s : State) : List Json :=
  match render s with
  | .message _ => []
  | .page _ qs => qs

end StudentSubmit

/-! Helper lemmas about the JS object update. -/

/-- Updating a key and reading it back yields the written value. -/
theorem objGet_objSet_self (r : List (String × Json)) (k : String) (v : Json) :
    objGet (objSet r k v) k = some v := by
  induction r with
  | nil => simp [objSet, objGet]
  | cons p rest ih =>
    obtain ⟨k1, v1⟩ := p
    by_cases h : k1 = k
    · simp [objSet, h, objGet]
    · simp [objSet, h, objGet, ih]

/-- Updating one key leaves the lookup of any other key unchanged. -/
theorem objGet_objSet_ne (r : List (String × Json)) (k k' : String) (v : Json)
    (h : k' ≠ k) :
    objGet (objSet r k v) k' = objGet r k' := by
  have h2 : ¬k = k' := fun e => h (Eq.symm e)
  induction r with
  | nil => simp [objSet, objGet, h2]
  | cons p rest ih =>
    obtain ⟨k1, v1⟩ := p
    by_cases h1 : k1 = k
    · subst h1
      simp [objSet, objGet, h2]
    · simp [objSet, h1, objGet, ih]

/-- Claim C1: every API client operation performs exactly one network call
per invocation (no retry), and for every HTTP response: a non-success status
produces exactly the generic failure "Upload failed", "Fetch assignment
failed" or "Submit failed" respectively, while a success status returns the
parsed JSON body. -/
theorem apiClient_singleCall_genericFailure
    (oracle : Request → Response) (baseUrl : String) (file : FileVal)
    (payload : ApiOwner.AssignmentUploadPayload)
    (auth : ApiOwner.UploadAssignmentAuth) (assignmentId : String)
    (body : Json) :
    NetM.calls oracle (Api.uploadAssignment baseUrl file) = 1 ∧
    NetM.calls oracle (Api.getAssignment baseUrl assignmentId) = 1 ∧
    NetM.calls oracle (Api.submitResponses baseUrl body) = 1 ∧
    NetM.calls oracle (ApiOwner.uploadAssignment baseUrl payload auth) = 1 ∧
    NetM.calls oracle (ApiOwner.getAssignment baseUrl assignmentId) = 1 ∧
    NetM.calls oracle (ApiOwner.submitResponses baseUrl body) = 1 ∧
    NetM.run oracle (Api.uploadAssignment baseUrl file) =
      (if (oracle (Api.uploadRequest baseUrl file)).ok then
        .ok (oracle (Api.uploadRequest baseUrl file)).body
       else .error "Upload failed") ∧
    NetM.run oracle (Api.getAssignment baseUrl assignmentId) =
      (if (oracle (Api.assignmentRequest baseUrl assignmentId)).ok then
        .ok (oracle (Api.assignmentRequest baseUrl assignmentId)).body
       else .error "Fetch assignment failed") ∧
    NetM.run oracle (Api.submitResponses baseUrl body) =
      (if (oracle (Api.submitRequest baseUrl body)).ok then
        .ok (oracle (Api.submitRequest baseUrl body)).body
       else .error "Submit failed") ∧
    NetM.run oracle (ApiOwner.uploadAssignment baseUrl payload auth) =
      (if (oracle (ApiOwner.uploadRequest baseUrl payload auth)).ok then
        .ok (oracle (ApiOwner.uploadRequest baseUrl payload auth)).body
       else .error "Upload failed") := by
  refine ⟨rfl, rfl, rfl, rfl, rfl, rfl, ?_, ?_, ?_, ?_⟩
  · cases h : (oracle (Api.uploadRequest baseUrl file)).ok <;>
      simp [Api.uploadAssignment, NetM.run, h]
  · cases h : (oracle (Api.assignmentRequest baseUrl assignmentId)).ok <;>
      simp [Api.getAssignment, NetM.run, h]
  · cases h : (oracle (Api.submitRequest baseUrl body)).ok <;>
      simp [Api.submitResponses, NetM.run, h]
  · cases h : (oracle (ApiOwner.uploadRequest baseUrl payload auth)).ok <;>
      simp [ApiOwner.uploadAssignment, NetM.run, h]

/-- Claim C9: recording an answer for one question id leaves every other id's
entry in the response map unchanged; hence after answering two distinct
questions (an option selection and a typed text) both answers are present in
the response map before submit. -/
theorem studentOnChange_frame (s : StudentSubmit.State) (q1 q2 : String)
    (v1 v2 : Json) (h : q1 ≠ q2) :
    objGet (StudentSubmit.onChange s q1 v1).responses q2 =
      objGet s.responses q2 ∧
    objGet ((StudentSubmit.onChange
        (StudentSubmit.onChange s q1 v1) q2 v2)).responses q1 = some v1 ∧
    objGet ((StudentSubmit.onChange
        (StudentSubmit.onChange s q1 v1) q2 v2)).responses q2 = some v2 := by
  refine ⟨?_, ?_, ?_⟩
  · exact objGet_objSet_ne _ _ _ _ (Ne.symm h)
  · show objGet (objSet (objSet s.responses q1 v1) q2 v2) q1 = some v1
    rw [objGet_objSet_ne _ _ _ _ h, objGet_objSet_self]
  · exact objGet_objSet_self _ _ _

/-- Concrete instance of the response-map frame property: selecting option
"B" for question "q1" and typing "text" for question "q2" leaves both answers
in the map. -/
theorem studentOnChange_frame_witness :
    objGet (StudentSubmit.onChange StudentSubmit.initState "q1"
        (Json.str "B")).responses "q2" =
      objGet StudentSubmit.initState.responses "q2" ∧
    objGet ((StudentSubmit.onChange
        (StudentSubmit.onChange StudentSubmit.initState "q1" (Json.str "B"))
        "q2" (Json.str "text"))).responses "q1" = some (Json.str "B") ∧
    objGet ((StudentSubmit.onChange
        (StudentSubmit.onChange StudentSubmit.initState "q1" (Json.str "B"))
        "q2" (Json.str "text"))).responses "q2" = some (Json.str "text") :=
  studentOnChange_frame StudentSubmit.initState "q1" "q2" (Json.str "B")
    (Json.str "text") (by decide)

/-- Claim C10: the getAssignment and submitResponses operations of the two
API client variants are extensionally equal: the embedded programs coincide,
so against every oracle they issue the same requests and return the same
result or error. -/
theorem apiVariants_getSubmit_equal (baseUrl assignmentId : String)
    (payload : Json) :
    Api.getAssignment baseUrl assignmentId =
      ApiOwner.getAssignment baseUrl assignmentId ∧
    Api.submitResponses baseUrl payload =
      ApiOwner.submitResponses baseUrl payload ∧
    (∀ oracle : Request → Response,
      NetM.requests oracle (Api.getAssignment baseUrl assignmentId) =
        NetM.requests oracle (ApiOwner.getAssignment baseUrl assignmentId) ∧
      NetM.run oracle (Api.getAssignment baseUrl assignmentId) =
        NetM.run oracle (ApiOwner.getAssignment baseUrl assignmentId) ∧
      NetM.requests oracle (Api.submitResponses baseUrl payload) =
        NetM.requests oracle (ApiOwner.submitResponses baseUrl payload) ∧
      NetM.run oracle (Api.submitResponses baseUrl payload) =
        NetM.run oracle (ApiOwner.submitResponses baseUrl payload)) :=
  ⟨rfl, rfl, fun _ => ⟨rfl, rfl, rfl, rfl⟩⟩

/-! Concrete fixtures used by witnesses. -/

/-- A concrete selected file. -/
def sampleFile : FileVal := { name := "hw1.docx", content := "questions" }

/-- A fully loaded, signed-in auth context with a non-empty token. -/
def authOk : TeacherUpload.AuthState :=
  { isAuthLoaded := true, isUserLoaded := true, isSignedIn := true,
    currentUser := some "user-1", token := some "tok-1" }

/-- An idle teacher page with a file selected and nothing uploaded yet. -/
def idleWithFile : TeacherState :=
  { file := some sampleFile, result := none, loading := false, err := none }

/-- Claim C4: each uploadAssignment variant issues exactly this one POST to
`{BASE_URL}/upload-assignment/`: a multipart form with the field `file`
(plus `owner_id` in the owner-aware variant); the simple variant carries no
headers while the owner-aware one carries the session token and user id; on a
success response the parsed JSON object `{assignmentId, questionsCount}` is
returned unchanged. -/
theorem uploadAssignment_request_shape (oracle : Request → Response)
    (baseUrl : String) (file : FileVal)
    (payload : ApiOwner.AssignmentUploadPayload)
    (auth : ApiOwner.UploadAssignmentAuth) :
    NetM.requests oracle (Api.uploadAssignment baseUrl file) =
      [{ url := baseUrl ++ "/upload-assignment/", method := "POST",
         headers := [],
         body := .multipart [("file", .fileVal file)] }] ∧
    NetM.requests oracle (ApiOwner.uploadAssignment baseUrl payload auth) =
      [{ url := baseUrl ++ "/upload-assignment/", method := "POST",
         headers := [("X-Clerk-Session-Token", auth.clerkToken),
                     ("X-Clerk-User-Id", payload.owner_id)],
         body := .multipart [("file", .fileVal payload.file),
                             ("owner_id", .strVal payload.owner_id)] }] ∧
    NetM.run
        (fun _ => { ok := true,
                    body := Json.obj [("assignmentId", Json.str "abc"),
                                      ("questionsCount", Json.num 3)] })
        (Api.uploadAssignment baseUrl file) =
      .ok (Json.obj [("assignmentId", Json.str "abc"),
                     ("questionsCount", Json.num 3)]) ∧
    NetM.run
        (fun _ => { ok := true,
                    body := Json.obj [("assignmentId", Json.str "abc"),
                                      ("questionsCount", Json.num 3)] })
        (ApiOwner.uploadAssignment baseUrl payload auth) =
      .ok (Json.obj [("assignmentId", Json.str "abc"),
                     ("questionsCount", Json.num 3)]) :=
  ⟨rfl, rfl, rfl, rfl⟩

/-- Claim C7: the student page's submit is one single POST to
`{BASE_URL}/submissions/` of the whole response set, with `studentId`
hardcoded to "demo-student" and `assignmentId` the id from the page's URL
parameter. -/
theorem studentSubmit_request_shape (oracle : Request → Response)
    (baseUrl assignmentId : String) (s : StudentSubmit.State) :
    NetM.requests oracle
        (StudentSubmit.onSubmit baseUrl (some assignmentId) s) =
      [{ url := baseUrl ++ "/submissions/", method := "POST",
         headers := [("Content-Type", "application/json")],
         body := .jsonBody (Json.obj
           [("assignmentId", Json.str assignmentId),
            ("studentId", Json.str "demo-student"),
            ("responses", Json.obj s.responses)]) }] ∧
    NetM.calls oracle
        (StudentSubmit.onSubmit baseUrl (some assignmentId) s) = 1 :=
  ⟨rfl, rfl⟩

/-- Claim C8: whenever no file is selected, the upload button of both teacher
page variants is disabled. -/
theorem uploadButton_disabled_noFile (auth : TeacherUpload.AuthState)
    (s : TeacherState) (h : s.file = none) :
    TeacherUpload.uploadButtonDisabled auth s = true ∧
    TeacherUploadSimple.uploadButtonDisabled s = true := by
  constructor <;>
    simp [TeacherUpload.uploadButtonDisabled,
      TeacherUploadSimple.uploadButtonDisabled, h]

/-- Concrete instance of the disabled-button invariant on a fresh page with
no file selected. -/
theorem uploadButton_disabled_noFile_witness :
    TeacherUpload.uploadButtonDisabled authOk
        { file := none, result := none, loading := false, err := none } =
      true ∧
    TeacherUploadSimple.uploadButtonDisabled
        { file := none, result := none, loading := false, err := none } =
      true :=
  uploadButton_disabled_noFile authOk
    { file := none, result := none, loading := false, err := none } rfl

/-- Counterexample to claim C2 as stated: on the Clerk-auth teacher upload
page, a form submit with a file selected and the page idle but the user
signed out does not transition to uploading; the handler returns with the
sign-in error and `loading` still false. -/
theorem teacherSubmit_signedOut_counterexample :
    TeacherUpload.onSubmitStart
        { isAuthLoaded := true, isUserLoaded := true, isSignedIn := false,
          currentUser := some "user-1", token := some "tok-1" }
        idleWithFile =
      .noUpload
        { file := some sampleFile, result := none, loading := false,
          err := some "You must be signed in to upload assignments." } := by
  rfl

/-- Claim C2 amended: on the Clerk-auth teacher page the idle-to-uploading
transition on a form submit with a file selected additionally requires the
auth context to be loaded, the user signed in, and a non-empty Clerk token;
then `loading` becomes true, a resolved upload promise sets the result and a
rejected one surfaces the rejection's message, both clearing `loading`. The
simple page variant makes the transition exactly as the claim states it. -/
theorem teacherSubmit_stateMachine (auth : TeacherUpload.AuthState)
    (s : TeacherState) (f : FileVal) (u t : String) (d : Json) (m : String)
    (hf : s.file = some f) (_hidle : s.loading = false)
    (h1 : auth.isAuthLoaded = true) (h2 : auth.isUserLoaded = true)
    (h3 : auth.isSignedIn = true) (h4 : auth.currentUser = some u)
    (h5 : auth.token = some t) (h6 : t ≠ "") (hm : m ≠ "") :
    TeacherUpload.onSubmitStart auth s =
      .uploading { s with err := none, loading := true }
        { file := f, owner_id := u } { clerkToken := t } ∧
    ({ s with err := none, loading := true } : TeacherState).loading = true ∧
    (∀ s1 : TeacherState,
      (TeacherUpload.onSubmitFinish s1 (.ok d)).result = some d ∧
      (TeacherUpload.onSubmitFinish s1 (.ok d)).loading = false ∧
      (TeacherUpload.onSubmitFinish s1 (.error m)).err = some m ∧
      (TeacherUpload.onSubmitFinish s1 (.error m)).loading = false) ∧
    TeacherUploadSimple.onSubmitStart s =
      .uploading { s with err := none, loading := true } f ∧
    (∀ s1 : TeacherState,
      (TeacherUploadSimple.onSubmitFinish s1 (.ok d)).result = some d ∧
      (TeacherUploadSimple.onSubmitFinish s1 (.ok d)).loading = false ∧
      (TeacherUploadSimple.onSubmitFinish s1 (.error m)).err = some m ∧
      (TeacherUploadSimple.onSubmitFinish s1 (.error m)).loading = false) := by
  refine ⟨?_, rfl, fun s1 => ⟨rfl, rfl, rfl, rfl⟩, ?_,
    fun s1 => ⟨rfl, rfl, ?_, rfl⟩⟩
  · simp [TeacherUpload.onSubmitStart, hf, h1, h2, h3, h4, h5, h6]
  · simp [TeacherUploadSimple.onSubmitStart, hf]
  · simp [TeacherUploadSimple.onSubmitFinish, hm]

/-- Concrete instance of the amended teacher upload state machine: with a
file selected and the auth context fully available, submit starts uploading,
resolution stores the result and rejection surfaces the message. -/
theorem teacherSubmit_stateMachine_witness :
    TeacherUpload.onSubmitStart authOk idleWithFile =
      .uploading { idleWithFile with err := none, loading := true }
        { file := sampleFile, owner_id := "user-1" }
        { clerkToken := "tok-1" } ∧
    ({ idleWithFile with err := none, loading := true } :
        TeacherState).loading = true ∧
    (∀ s1 : TeacherState,
      (TeacherUpload.onSubmitFinish s1 (.ok (Json.obj []))).result =
        some (Json.obj []) ∧
      (TeacherUpload.onSubmitFinish s1 (.ok (Json.obj []))).loading = false ∧
      (TeacherUpload.onSubmitFinish s1 (.error "Upload failed")).err =
        some "Upload failed" ∧
      (TeacherUpload.onSubmitFinish s1
        (.error "Upload failed")).loading = false) ∧
    TeacherUploadSimple.onSubmitStart idleWithFile =
      .uploading { idleWithFile with err := none, loading := true }
        sampleFile ∧
    (∀ s1 : TeacherState,
      (TeacherUploadSimple.onSubmitFinish s1 (.ok (Json.obj []))).result =
        some (Json.obj []) ∧
      (TeacherUploadSimple.onSubmitFinish s1
        (.ok (Json.obj []))).loading = false ∧
      (TeacherUploadSimple.onSubmitFinish s1 (.error "Upload failed")).err =
        some "Upload failed" ∧
      (TeacherUploadSimple.onSubmitFinish s1
        (.error "Upload failed")).loading = false) :=
  teacherSubmit_stateMachine authOk idleWithFile sampleFile "user-1" "tok-1"
    (Json.obj []) "Upload failed" rfl rfl rfl rfl rfl rfl rfl (by decide)
    (by decide)

/-- A teacher page state in which an earlier upload already succeeded. -/
def afterSuccessState : TeacherState :=
  { file := some sampleFile
    result := some (Json.obj [("assignmentId", Json.str "abc"),
                              ("questionsCount", Json.num 3)])
    loading := false
    err := none }

/-- An oracle answering every request with a non-success (4xx/5xx) status. -/
def failingOracle : Request → Response :=
  fun _ => { ok := false, body := Json.null }

/-- Counterexample to claim C3 as stated: an upload attempt receiving a
4xx/5xx response from a state holding the result of an earlier successful
upload shows the error message, yet the result panel of the earlier success
is still rendered (`result` is never cleared). -/
theorem teacherError_resultPanel_counterexample :
    rendersErrMsg
        (TeacherUploadSimple.attempt "http://api" failingOracle
          afterSuccessState) = some "Upload failed" ∧
    rendersResultPanel
        (TeacherUploadSimple.attempt "http://api" failingOracle
          afterSuccessState) = true := by
  constructor <;> rfl

/-- Claim C3 amended: an upload attempt that receives a 4xx/5xx response
shows the error message, and — provided no earlier upload had already
succeeded (the page's `result` is still null) — no result panel appears;
this holds for both teacher page variants. -/
theorem teacherError_noResultPanel (baseUrl : String)
    (oracle : Request → Response) (s : TeacherState) (f : FileVal)
    (auth : TeacherUpload.AuthState) (u t : String)
    (hf : s.file = some f) (hres : s.result = none)
    (hok : (oracle (Api.uploadRequest baseUrl f)).ok = false)
    (h1 : auth.isAuthLoaded = true) (h2 : auth.isUserLoaded = true)
    (h3 : auth.isSignedIn = true) (h4 : auth.currentUser = some u)
    (h5 : auth.token = some t) (h6 : t ≠ "")
    (hok2 : (oracle (ApiOwner.uploadRequest baseUrl
        { file := f, owner_id := u } { clerkToken := t })).ok = false) :
    rendersErrMsg (TeacherUploadSimple.attempt baseUrl oracle s) =
      some "Upload failed" ∧
    rendersResultPanel (TeacherUploadSimple.attempt baseUrl oracle s) =
      false ∧
    rendersErrMsg (TeacherUpload.attempt baseUrl oracle auth s) =
      some "Upload failed" ∧
    rendersResultPanel (TeacherUpload.attempt baseUrl oracle auth s) =
      false := by
  have hrun : NetM.run oracle (Api.uploadAssignment baseUrl f) =
      .error "Upload failed" := by
    simp [Api.uploadAssignment, NetM.run, hok]
  have hrun2 : NetM.run oracle (ApiOwner.uploadAssignment baseUrl
      { file := f, owner_id := u } { clerkToken := t }) =
      .error "Upload failed" := by
    simp [ApiOwner.uploadAssignment, NetM.run, hok2]
  refine ⟨?_, ?_, ?_, ?_⟩ <;>
    simp [TeacherUploadSimple.attempt, TeacherUploadSimple.onSubmitStart,
      TeacherUploadSimple.onSubmitFinish, TeacherUpload.attempt,
      TeacherUpload.onSubmitStart, TeacherUpload.onSubmitFinish,
      hf, hres, h1, h2, h3, h4, h5, h6, hrun, hrun2,
      rendersErrMsg, rendersResultPanel]

/-- Concrete instance of the amended error-display property: a first upload
attempt against a failing backend shows "Upload failed" and no result panel,
on both page variants. -/
theorem teacherError_noResultPanel_witness :
    rendersErrMsg
        (TeacherUploadSimple.attempt "http://api" failingOracle
          idleWithFile) = some "Upload failed" ∧
    rendersResultPanel
        (TeacherUploadSimple.attempt "http://api" failingOracle
          idleWithFile) = false ∧
    rendersErrMsg
        (TeacherUpload.attempt "http://api" failingOracle authOk
          idleWithFile) = some "Upload failed" ∧
    rendersResultPanel
        (TeacherUpload.attempt "http://api" failingOracle authOk
          idleWithFile) = false :=
  teacherError_noResultPanel "http://api" failingOracle idleWithFile
    sampleFile authOk "user-1" "tok-1" rfl rfl rfl rfl rfl rfl rfl rfl
    (by decide) rfl

/-- Claim C5: after a successful upload whose response body is
`{assignmentId: aid, questionsCount: n}`, the teacher page renders the result
panel showing that id, that count, and a link whose target is
`/student/aid`. -/
theorem teacherSuccess_rendersResult (baseUrl : String)
    (oracle : Request → Response) (s : TeacherState) (f : FileVal)
    (auth : TeacherUpload.AuthState) (u t aid : String) (n : Int)
    (hf : s.file = some f)
    (h1 : auth.isAuthLoaded = true) (h2 : auth.isUserLoaded = true)
    (h3 : auth.isSignedIn = true) (h4 : auth.currentUser = some u)
    (h5 : auth.token = some t) (h6 : t ≠ "")
    (hresp : oracle (ApiOwner.uploadRequest baseUrl
        { file := f, owner_id := u } { clerkToken := t }) =
      { ok := true,
        body := Json.obj [("assignmentId", Json.str aid),
                          ("questionsCount", Json.num n)] }) :
    resultPanel (TeacherUpload.attempt baseUrl oracle auth s) =
      some { assignmentIdText := aid, questionsText := toString n,
             linkHref := "/student/" ++ aid } := by
  have hrun : NetM.run oracle (ApiOwner.uploadAssignment baseUrl
      { file := f, owner_id := u } { clerkToken := t }) =
      .ok (Json.obj [("assignmentId", Json.str aid),
                     ("questionsCount", Json.num n)]) := by
    simp [ApiOwner.uploadAssignment, NetM.run, hresp]
  simp [TeacherUpload.attempt, TeacherUpload.onSubmitStart, hf, h1, h2, h3,
    h4, h5, h6, hrun, TeacherUpload.onSubmitFinish, resultPanel, jGet,
    objGet, reactText, reactTextJ, jsTemplate]

/-- An oracle answering every request with the successful upload body of the
spec's example, `{assignmentId: "abc", questionsCount: 3}`. -/
def abcOracle : Request → Response :=
  fun _ => { ok := true,
             body := Json.obj [("assignmentId", Json.str "abc"),
                               ("questionsCount", Json.num 3)] }

/-- Concrete instance of the successful-upload rendering: the spec's example
response renders id "abc", count 3 and the link `/student/abc`. -/
theorem teacherSuccess_rendersResult_witness :
    resultPanel (TeacherUpload.attempt "http://api" abcOracle authOk
        idleWithFile) =
      some { assignmentIdText := "abc", questionsText := toString (3 : Int),
             linkHref := "/student/" ++ "abc" } :=
  teacherSuccess_rendersResult "http://api" abcOracle idleWithFile sampleFile
    authOk "user-1" "tok-1" "abc" 3 rfl rfl rfl rfl rfl rfl (by decide) rfl

/-- Claim C6: when the assignment fetch on the student page delivers a body
whose `error` property is truthy (such as `{error: true}`), the page shows
"Assignment not found" and renders no questions. -/
theorem studentLoad_errorBody (baseUrl assignmentId : String)
    (oracle : Request → Response)
    (hok : (oracle (Api.assignmentRequest baseUrl assignmentId)).ok = true)
    (herr : truthy (jGet
        (oracle (Api.assignmentRequest baseUrl assignmentId)).body
        "error") = true) :
    StudentSubmit.render
        (StudentSubmit.loadEffect baseUrl oracle (some assignmentId)
          StudentSubmit.initState) =
      .message "Assignment not found" ∧
    StudentSubmit.renderedQuestions
        (StudentSubmit.loadEffect baseUrl oracle (some assignmentId)
          StudentSubmit.initState) = [] := by
  have hrun : NetM.run oracle (Api.getAssignment baseUrl assignmentId) =
      .ok (oracle (Api.assignmentRequest baseUrl assignmentId)).body := by
    simp [Api.getAssignment, NetM.run, hok]
  constructor <;>
    simp [StudentSubmit.loadEffect, hrun, herr, StudentSubmit.render,
      StudentSubmit.renderedQuestions, StudentSubmit.initState]

/-- An oracle answering every request successfully with the body
`{error: true}`. -/
def errorBodyOracle : Request → Response :=
  fun _ => { ok := true, body := Json.obj [("error", Json.bool true)] }

/-- Concrete instance of the not-found rendering: fetching assignment "a1"
against a backend answering `{error: true}` shows "Assignment not found" and
renders no questions. -/
theorem studentLoad_errorBody_witness :
    StudentSubmit.render
        (StudentSubmit.loadEffect "http://api" errorBodyOracle (some "a1")
          StudentSubmit.initState) =
      .message "Assignment not found" ∧
    StudentSubmit.renderedQuestions
        (StudentSubmit.loadEffect "http://api" errorBodyOracle (some "a1")
          StudentSubmit.initState) = [] :=
  studentLoad_errorBody "http://api" "a1" errorBodyOracle rfl (by decide)
